import Mathlib

/-!
Shallow embedding of src/usbmachine.py (the `App` class): the AOA
accessory-mode negotiation steps (`set_protocol`,
`send_accessory_parameters`, `set_accessory_mode`, sequenced by
`prepare_device`) and the duplex data channel (`accept_data`, `write`).

The USB device and the console are external collaborators; every value
the Python code obtains from them (the outcome of `set_configuration`,
the bytes of the version read, the per-slot acknowledgment counts, the
trigger acknowledgment, the bus re-scan result, the stream of read
outcomes in the receive loop) is threaded in explicitly through an
environment structure.  Each operation returns its result, the updated
`App` state, and the trace of USB actions it performed, in order.
-/

namespace USBMachine

/-- A USB device handle; `id` stands for the identity of the underlying
object, so two handles are the same handle iff their `id`s agree. -/
structure Device where
  id : Nat
deriving DecidableEq, Repr

/-- The mutable state of the Python `App` dataclass that the negotiation
touches: the `device` field (`Optional[Device]`).  The console is pure
output and is not part of the state. -/
structure App where
  device : Option Device
deriving DecidableEq, Repr

/-- The exceptions the negotiation code can raise, one constructor per
`raise` site (plus the re-raised `USBError` from `set_configuration`):
* `usbError errno` — the `usb.core.USBError` re-raised in `set_protocol`;
* `unsupportedProtocol v` — `ValueError` carrying the version, line 78;
* `identityRejected` — `ValueError` at line 85;
* `modeTriggerFailed` — `ValueError` at line 99;
* `deviceLost` — `ValueError` at line 105. -/
inductive NegError where
  | usbError (errno : Int)
  | unsupportedProtocol (version : Nat)
  | identityRejected
  | modeTriggerFailed
  | deviceLost
deriving DecidableEq, Repr

/-- One observable USB-side action of the negotiation, in the order the
Python code performs them. -/
inductive Transfer where
  | setConfiguration
  | controlRead (bmRequestType bRequest wValue wIndex wLength : Nat)
  | controlWrite (bmRequestType bRequest wValue wIndex : Nat) (data : String)
  | sleep (secs : Nat)
  | busFind
deriving DecidableEq, Repr

/-- Everything the device side decides during negotiation:
* `configResult` — `none` when `set_configuration()` succeeds, `some errno`
  when it raises `usb.core.USBError` with that `errno`;
* `versionLow`, `versionHigh` — the two bytes returned by the version
  control read (`ret[0]` is `versionLow`);
* `ack slot` — the byte count returned by the identity control write for
  `wIndex = slot`;
* `triggerAck` — the count returned by the mode-trigger control write;
* `rescan` — the result of `usb.core.find()` after the trigger. -/
structure Env where
  configResult : Option Int
  versionLow : Nat
  versionHigh : Nat
  ack : Nat → Nat
  triggerAck : Nat
  rescan : Option Device

/-- `App.set_protocol` (lines 67 to 79).  Note the control flow of the
`except` block at lines 70 to 73: the `raise` statement is at the level
of the handler, not in an `else` branch, so it re-raises the `USBError`
unconditionally — also when `errno == 16`, where the `pass` under the
`if` has no effect.  The embedding reproduces this: any `configResult`
of `some errno` makes the step fail, errno 16 included. -/
def set_protocol (st : App) (env : Env) : Except NegError Unit × App × List Transfer :=
  match env.configResult with
  | some errno => (.error (.usbError errno), st, [.setConfiguration])
  | none =>
    let protocol := env.versionLow
    if protocol < 2 then
      (.error (.unsupportedProtocol protocol), st,
        [.setConfiguration, .controlRead 0xC0 51 0 0 2])
    else
      (.ok (), st, [.setConfiguration, .controlRead 0xC0 51 0 0 2])

/-- The six identity strings the code sends, with their `str_id` slots,
exactly as written at lines 88 to 93. -/
def identityStrings : List (Nat × String) :=
  [(0, "dvpashkevich"),
   (1, "PyAndroidCompanion"),
   (2, "A Python based Android accessory companion"),
   (3, "0.1.0"),
   (4, "https://github.com/alien-agent/USB-Communicator-Script"),
   (5, "0000-0000-0000")]

/-- The inner `send_string` check (lines 82 to 86): the write for
`(str_id, str_val)` is issued, then the returned count is compared with
`len(str_val)`; a mismatch raises `ValueError`. -/
def send_string (env : Env) (str_id : Nat) (str_val : String) : Except NegError Unit :=
  if env.ack str_id = str_val.length then .ok () else .error .identityRejected

/-- The identity write the Python `send_string` issues:
`ctrl_transfer(0x40, 52, 0, str_id, str_val, 0)`. -/
def identityWrite (p : Nat × String) : Transfer :=
  .controlWrite 0x40 52 0 p.1 p.2

/-- Sends the given slot/string pairs in order, stopping at the first
acknowledgment mismatch; returns the outcome and the trace of control
writes actually issued (the write whose acknowledgment mismatched was
itself issued, so it is in the trace). -/
def sendStrings (env : Env) : List (Nat × String) → Except NegError Unit × List Transfer
  | [] => (.ok (), [])
  | p :: rest =>
    match send_string env p.1 p.2 with
    | .error e => (.error e, [identityWrite p])
    | .ok _ =>
      let r := sendStrings env rest
      (r.1, identityWrite p :: r.2)

/-- `App.send_accessory_parameters` (lines 81 to 94): sends the six
identity strings in order.  It never assigns `self.device`. -/
def send_accessory_parameters (st : App) (env : Env) :
    Except NegError Unit × App × List Transfer :=
  let r := sendStrings env identityStrings
  (r.1, st, r.2)

/-- `App.set_accessory_mode` (lines 96 to 108): issue the empty-payload
trigger write (`ctrl_transfer(0x40, 53, 0, 0, '', 0)`); a truthy return
(`if ret:`) raises `ValueError`.  Otherwise `time.sleep(1)`, then one
`usb.core.find()`: `None` raises `ValueError`, a device is assigned to
`self.device` unconditionally — the code never compares it with the
pre-trigger handle. -/
def set_accessory_mode (st : App) (env : Env) :
    Except NegError Unit × App × List Transfer :=
  if env.triggerAck ≠ 0 then
    (.error .modeTriggerFailed, st, [.controlWrite 0x40 53 0 0 ""])
  else
    match env.rescan with
    | none =>
      (.error .deviceLost, st,
        [.controlWrite 0x40 53 0 0 "", .sleep 1, .busFind])
    | some dev =>
      (.ok (), { st with device := some dev },
        [.controlWrite 0x40 53 0 0 "", .sleep 1, .busFind])

/-- `App.prepare_device` (lines 51 to 65): run the three steps in order;
the first exception aborts the run (the Python prints FAIL and calls
`sys.exit(1)`, so later steps never execute).  Returns the outcome, the
final `App` state and the concatenated trace. -/
def prepare_device (st : App) (env : Env) :
    Except NegError Unit × App × List Transfer :=
  let r1 := set_protocol st env
  match r1.1 with
  | .error e => (.error e, r1.2.1, r1.2.2)
  | .ok _ =>
    let r2 := send_accessory_parameters r1.2.1 env
    match r2.1 with
    | .error e => (.error e, r2.2.1, r1.2.2 ++ r2.2.2)
    | .ok _ =>
      let r3 := set_accessory_mode r2.2.1 env
      (r3.1, r3.2.1, r1.2.2 ++ r2.2.2 ++ r3.2.2)

/-- Recognizes the identity-string control writes (request code 52). -/
def isIdentityWrite : Transfer → Bool
  | .controlWrite _ 52 _ _ _ => true
  | _ => false

/-! ### The duplex data channel -/

/-- A USB endpoint descriptor; only the address matters here. -/
structure Endpoint where
  bEndpointAddress : Nat
deriving DecidableEq, Repr

/-- `usb.util.ENDPOINT_IN` (the direction bit set). -/
def ENDPOINT_IN : Nat := 0x80

/-- `usb.util.ENDPOINT_OUT`. -/
def ENDPOINT_OUT : Nat := 0x00

/-- `usb.util.endpoint_direction`: the address masked with 0x80. -/
def endpoint_direction (address : Nat) : Nat := address &&& 0x80

/-- `usb.util.find_descriptor` with a `custom_match` predicate over the
endpoints of the selected interface: the first match, else `None`. -/
def find_descriptor (endpoints : List Endpoint) (p : Endpoint → Bool) :
    Option Endpoint :=
  endpoints.find? p

/-- The endpoint search in `accept_data` (lines 116 to 122). -/
def find_in_endpoint (endpoints : List Endpoint) : Option Endpoint :=
  find_descriptor endpoints
    (fun e => endpoint_direction e.bEndpointAddress == ENDPOINT_IN)

/-- The endpoint search in `write` (lines 140 to 146). -/
def find_out_endpoint (endpoints : List Endpoint) : Option Endpoint :=
  find_descriptor endpoints
    (fun e => endpoint_direction e.bEndpointAddress == ENDPOINT_OUT)

/-- The failure of the data channel when no endpoint of the required
direction exists: `find_descriptor` returns `None` and the first
`ep.read` / `ep.write` on it raises an uncaught `AttributeError`, so
the channel fails before any bulk transfer is attempted. -/
inductive ChannelError where
  | endpointNotFound
deriving DecidableEq, Repr

/-- One outcome of a blocking 1-byte read in the receive loop:
a byte arrives, the read raises `usb.core.USBError` with the given
description, or a `KeyboardInterrupt` is delivered. -/
inductive ReadEvent where
  | byte (b : Nat)
  | usbErr (msg : String)
  | interrupt
deriving DecidableEq, Repr

/-- How the receive loop stands after consuming its events:
* `running` — the loop is still iterating (it would block on the next read);
* `transportError msg` — the `except USBError` arm printed the error and hit `break`;
* `uncaught msg` — an exception escaped the loop (the kernel-driver
  detach inside the `except KeyboardInterrupt` arm raised). -/
inductive LoopExit where
  | running
  | transportError (msg : String)
  | uncaught (msg : String)
deriving DecidableEq, Repr

/-- Observable outcome of the receive loop: the byte values printed to
standard output, the number of reads attempted, the number of
kernel-driver detach attempts on interface 0, and how the loop stands. -/
structure LoopResult where
  output : List Nat
  reads : Nat
  detaches : Nat
  exit : LoopExit
deriving DecidableEq, Repr

/-- The `while True` loop of `App.accept_data` (lines 123 to 133), one
event per attempted read.  Faithful to the control flow of the Python:
* a byte is printed and the loop continues;
* a `USBError` prints the description and `break`s;
* a `KeyboardInterrupt` prints the disconnect message and calls
  `self.device.detach_kernel_driver(0)`.  The handler contains no
  `break`, so when the detach succeeds the loop re-enters and reads
  again; when the detach raises (`detachResult = some msg`) the
  exception propagates out of the loop uncaught. -/
def receive_loop (detachResult : Option String) :
    List ReadEvent → LoopResult
  | [] => ⟨[], 0, 0, .running⟩
  | .byte b :: rest =>
    let r := receive_loop detachResult rest
    ⟨b :: r.output, r.reads + 1, r.detaches, r.exit⟩
  | .usbErr msg :: _ => ⟨[], 1, 0, .transportError msg⟩
  | .interrupt :: rest =>
    match detachResult with
    | some msg => ⟨[], 1, 1, .uncaught msg⟩
    | none =>
      let r := receive_loop detachResult rest
      ⟨r.output, r.reads + 1, r.detaches + 1, r.exit⟩

/-- `App.accept_data` (lines 110 to 133): select the IN endpoint of the
active interface, then run the receive loop.  When no IN endpoint
exists `find_descriptor` returns `None` and the first `ep_in.read`
raises an uncaught `AttributeError` — the channel fails with no read
performed, modelled as `ChannelError.endpointNotFound`. -/
def accept_data (endpoints : List Endpoint) (detachResult : Option String)
    (events : List ReadEvent) : Except ChannelError LoopResult :=
  match find_in_endpoint endpoints with
  | none => .error .endpointNotFound
  | some _ => .ok (receive_loop detachResult events)

/-- `App.write` (lines 135 to 149): select the OUT endpoint, then write
each console line to it in order.  When no OUT endpoint exists the
first `ep_out.write` raises an uncaught `AttributeError` — modelled as
`ChannelError.endpointNotFound`. -/
def write (endpoints : List Endpoint) (messages : List String) :
    Except ChannelError (List String) :=
  match find_out_endpoint endpoints with
  | none => .error .endpointNotFound
  | some _ => .ok messages

/-! ### Concrete inputs used by the executable checks below -/

/-- An `App` holding the device handle with identity 0. -/
def app0 : App := ⟨some ⟨0⟩⟩

/-- The acknowledgment function that returns exactly the byte count
sent for every identity slot. -/
def ackExact : Nat → Nat
  | 0 => 12
  | 1 => 18
  | 2 => 42
  | 3 => 5
  | 4 => 54
  | _ => 14

/-- Environment where every device answer is nominal. -/
def envOk : Env :=
  { configResult := none, versionLow := 2, versionHigh := 0,
    ack := ackExact, triggerAck := 0, rescan := some ⟨1⟩ }

/-- Environment identical to `envOk` except that `set_configuration`
raises `USBError` with `errno == 16` (device already configured). -/
def env16 : Env := { envOk with configResult := some 16 }

/-- Environment identical to `envOk` except the device reports protocol
version 1. -/
def envV1 : Env := { envOk with versionLow := 1 }

/-- Environment identical to `envOk` except every identity write is
acknowledged with 0 bytes. -/
def envBad0 : Env := { envOk with ack := fun _ => 0 }

/-- Environment identical to `envOk` except the post-trigger re-scan
returns the very device handle the negotiation started with. -/
def envSame : Env := { envOk with rescan := some ⟨0⟩ }

/-- A lone IN endpoint (direction bit set). -/
def epIn : Endpoint := ⟨0x81⟩

/-- A lone OUT endpoint (direction bit clear). -/
def epOut : Endpoint := ⟨0x02⟩

/-! ### Helper lemmas -/

theorem set_protocol_state (st : App) (env : Env) :
    (set_protocol st env).2.1 = st := by
  cases h : env.configResult with
  | none =>
    simp only [set_protocol, h]
    split <;> rfl
  | some errno => simp [set_protocol, h]

theorem send_accessory_parameters_state (st : App) (env : Env) :
    (send_accessory_parameters st env).2.1 = st := rfl

theorem set_accessory_mode_state_of_error (st : App) (env : Env) (e : NegError)
    (h : (set_accessory_mode st env).1 = .error e) :
    (set_accessory_mode st env).2.1 = st := by
  by_cases ht : env.triggerAck = 0
  · cases hr : env.rescan with
    | none => simp [set_accessory_mode, ht, hr]
    | some dev => simp [set_accessory_mode, ht, hr] at h
  · simp [set_accessory_mode, ht]

theorem sendStrings_ok_iff (env : Env) (l : List (Nat × String)) :
    (sendStrings env l).1 = .ok () ↔ ∀ p ∈ l, env.ack p.1 = p.2.length := by
  induction l with
  | nil => simp [sendStrings]
  | cons p rest ih =>
    by_cases h : env.ack p.1 = p.2.length
    · simp [sendStrings, send_string, h, ih]
    · simp [sendStrings, send_string, h]

theorem sendStrings_trace_of_ok (env : Env) (l : List (Nat × String))
    (h : ∀ p ∈ l, env.ack p.1 = p.2.length) :
    sendStrings env l = (.ok (), l.map identityWrite) := by
  induction l with
  | nil => rfl
  | cons p rest ih =>
    have hp := h p (by simp)
    have hr := ih (fun q hq => h q (by simp [hq]))
    simp [sendStrings, send_string, hp, hr]

theorem sendStrings_first_mismatch (env : Env) (l1 : List (Nat × String))
    (i : Nat) (s : String) (l2 : List (Nat × String))
    (h1 : ∀ p ∈ l1, env.ack p.1 = p.2.length)
    (h2 : env.ack i ≠ s.length) :
    sendStrings env (l1 ++ (i, s) :: l2) =
      (.error .identityRejected, (l1 ++ [(i, s)]).map identityWrite) := by
  induction l1 with
  | nil => simp [sendStrings, send_string, h2]
  | cons p rest ih =>
    have hp := h1 p (by simp)
    have hr := ih (fun q hq => h1 q (by simp [hq]))
    simp [sendStrings, send_string, hp, hr]

theorem prepare_device_error_frame (st : App) (env : Env) (e : NegError)
    (h : (prepare_device st env).1 = .error e) :
    (prepare_device st env).2.1.device = st.device := by
  have hs1 := set_protocol_state st env
  simp only [prepare_device, hs1] at h ⊢
  cases h1 : (set_protocol st env).1 with
  | error e1 => simp [h1, hs1]
  | ok _ =>
    simp only [h1, send_accessory_parameters_state] at h ⊢
    cases h2 : (send_accessory_parameters st env).1 with
    | error e2 => simp [h2]
    | ok _ =>
      simp only [h2] at h ⊢
      have := set_accessory_mode_state_of_error st env e h
      simp [this]

/-! ### Claim theorems -/

/-- Claim C1 (the code contradicts it): when `set_configuration` raises
`USBError` with `errno == 16` (device already configured), the `raise`
at lines 70 to 73 re-raises unconditionally — the `pass` guarded by
`if e.errno == 16` has no effect — so the Configure step fails with
the USB error instead of completing, and the protocol-version read is
never issued (the trace stops at `setConfiguration`). -/
theorem set_protocol_errno16_reraises :
    set_protocol app0 env16 =
      (.error (.usbError 16), app0, [.setConfiguration]) := rfl

/-- Claim C2 (the code contradicts it): the `except KeyboardInterrupt`
arm of the receive loop (lines 131 to 133) contains no `break`.  When
the kernel-driver detach succeeds the `while True` loop re-enters and
reads again (here: a second read is attempted and the byte 7 is
printed, with the loop still running); when the detach raises, the
exception escapes the loop uncaught rather than exiting cleanly. -/
theorem receive_loop_interrupt_no_exit :
    receive_loop none [.interrupt, .byte 7] =
      { output := [7], reads := 2, detaches := 1, exit := .running } ∧
    receive_loop (some "detach failed") [.interrupt] =
      { output := [], reads := 1, detaches := 1,
        exit := .uncaught "detach failed" } :=
  ⟨rfl, rfl⟩

/-- Claim C3 counterexample: on a fully acknowledged run,
`send_accessory_parameters` issues six identity writes, including one
at `wIndex` slot 5 (the serial string) — refuting that exactly five
strings are sent at slots 0 through 4 and no other slot is written. -/
theorem send_accessory_parameters_slot5_written :
    (send_accessory_parameters app0 envOk).2.2.length = 6 ∧
    Transfer.controlWrite 0x40 52 0 5 "0000-0000-0000" ∈
      (send_accessory_parameters app0 envOk).2.2 := by
  constructor
  · rfl
  · decide

/-- Claim C3 as amended: whenever every identity write is acknowledged
with the byte count sent, the SendIdentity step completes and issues
exactly six vendor control writes with request code 52 at `wIndex`
slots 0 through 5, in this exact order: manufacturer, model,
description, version, URI, serial. -/
theorem send_accessory_parameters_sends_slots_0_to_5 (st : App) (env : Env)
    (h : ∀ p ∈ identityStrings, env.ack p.1 = p.2.length) :
    (send_accessory_parameters st env).1 = .ok () ∧
    (send_accessory_parameters st env).2.2 =
      [Transfer.controlWrite 0x40 52 0 0 "dvpashkevich",
       Transfer.controlWrite 0x40 52 0 1 "PyAndroidCompanion",
       Transfer.controlWrite 0x40 52 0 2
         "A Python based Android accessory companion",
       Transfer.controlWrite 0x40 52 0 3 "0.1.0",
       Transfer.controlWrite 0x40 52 0 4
         "https://github.com/alien-agent/USB-Communicator-Script",
       Transfer.controlWrite 0x40 52 0 5 "0000-0000-0000"] := by
  have ht := sendStrings_trace_of_ok env identityStrings h
  constructor
  · simp [send_accessory_parameters, ht]
  · show (sendStrings env identityStrings).2 = _
    rw [ht]
    rfl

/-- Witness for the amended claim C3 at the nominal environment. -/
theorem send_accessory_parameters_sends_slots_0_to_5_witness :
    (send_accessory_parameters app0 envOk).1 = .ok () :=
  (send_accessory_parameters_sends_slots_0_to_5 app0 envOk (by decide)).1

/-- Claim C4: when the configuration step succeeds, `set_protocol`
completes iff the low version byte is at least 2; when it is below 2,
the step fails with the unsupported-protocol error carrying the
reported version, the whole negotiation fails with that same error,
and no identity-string control write (request 52) is ever issued. -/
theorem set_protocol_version_gate (st : App) (env : Env)
    (hc : env.configResult = none) :
    ((set_protocol st env).1 = .ok () ↔ 2 ≤ env.versionLow) ∧
    (env.versionLow < 2 →
      (set_protocol st env).1 = .error (.unsupportedProtocol env.versionLow) ∧
      (prepare_device st env).1 = .error (.unsupportedProtocol env.versionLow) ∧
      (prepare_device st env).2.2.filter isIdentityWrite = []) := by
  constructor
  · by_cases h : env.versionLow < 2 <;> simp [set_protocol, hc, h]
    omega
  · intro h
    have h1 : set_protocol st env =
        (.error (.unsupportedProtocol env.versionLow), st,
          [.setConfiguration, .controlRead 0xC0 51 0 0 2]) := by
      simp [set_protocol, hc, h]
    refine ⟨by simp [h1], ?_, ?_⟩
    · simp [prepare_device, h1]
    · simp [prepare_device, h1, isIdentityWrite]

/-- Witness for claim C4: protocol version 1 is rejected with the
version in the error and no identity write in the trace. -/
theorem set_protocol_version_gate_witness :
    (set_protocol app0 envV1).1 = .error (.unsupportedProtocol 1) ∧
    (prepare_device app0 envV1).2.2.filter isIdentityWrite = [] := by
  have h := (set_protocol_version_gate app0 envV1 rfl).2 (by decide)
  exact ⟨h.1, h.2.2⟩

/-- Claim C5: `send_accessory_parameters` completes iff every
acknowledged byte count equals the length of the string sent, in
order; when the first mismatch occurs at the string of slot `i`, the
step fails with the identity-rejected error and the trace contains the
writes up to and including slot `i` only — no write for any later
slot is issued. -/
theorem send_accessory_parameters_ack_check (st : App) (env : Env) :
    ((send_accessory_parameters st env).1 = .ok () ↔
      ∀ p ∈ identityStrings, env.ack p.1 = p.2.length) ∧
    (∀ l1 i s l2, identityStrings = l1 ++ (i, s) :: l2 →
      (∀ p ∈ l1, env.ack p.1 = p.2.length) → env.ack i ≠ s.length →
      (send_accessory_parameters st env).1 = .error .identityRejected ∧
      (send_accessory_parameters st env).2.2 =
        (l1 ++ [(i, s)]).map identityWrite) := by
  constructor
  · simpa [send_accessory_parameters] using sendStrings_ok_iff env identityStrings
  · intro l1 i s l2 hsplit h1 h2
    have h := sendStrings_first_mismatch env l1 i s l2 h1 h2
    constructor
    · simp [send_accessory_parameters, hsplit, h]
    · simp [send_accessory_parameters, hsplit, h]

/-- Witness for claim C5: with every write acknowledged as 0 bytes,
the very first string (slot 0) mismatches, the step fails with the
identity-rejected error, and only the slot-0 write is in the trace. -/
theorem send_accessory_parameters_ack_check_witness :
    (send_accessory_parameters app0 envBad0).1 = .error .identityRejected ∧
    (send_accessory_parameters app0 envBad0).2.2 =
      [Transfer.controlWrite 0x40 52 0 0 "dvpashkevich"] := by
  have h := (send_accessory_parameters_ack_check app0 envBad0).2
    [] 0 "dvpashkevich"
    [(1, "PyAndroidCompanion"),
     (2, "A Python based Android accessory companion"),
     (3, "0.1.0"),
     (4, "https://github.com/alien-agent/USB-Communicator-Script"),
     (5, "0000-0000-0000")]
    rfl (by simp) (by decide)
  simpa [identityWrite] using h

/-- Claim C6 counterexample: with a successful trigger and a re-scan
that returns the pre-trigger handle itself, `set_accessory_mode`
succeeds and the resulting handle is identical to the pre-trigger one —
refuting that the post-trigger handle must differ in identity (the code
performs no such comparison). -/
theorem set_accessory_mode_handle_can_coincide :
    app0.device = some ⟨0⟩ ∧
    (set_accessory_mode app0 envSame).1 = .ok () ∧
    (set_accessory_mode app0 envSame).2.1.device = some ⟨0⟩ :=
  ⟨rfl, rfl, rfl⟩

/-- Claim C6 as amended: after a successful trigger the bus is
re-scanned exactly once, after the fixed settle wait; with no device
found the step fails with the device-lost error and the device field
is untouched; with a device found the device field is replaced by the
re-scanned handle — without any check that it differs from the
pre-trigger handle. -/
theorem set_accessory_mode_rescan (st : App) (env : Env)
    (h : env.triggerAck = 0) :
    (env.rescan = none →
      (set_accessory_mode st env).1 = .error .deviceLost ∧
      (set_accessory_mode st env).2.1.device = st.device) ∧
    (∀ d, env.rescan = some d →
      (set_accessory_mode st env).1 = .ok () ∧
      (set_accessory_mode st env).2.1.device = some d) ∧
    (set_accessory_mode st env).2.2 =
      [.controlWrite 0x40 53 0 0 "", .sleep 1, .busFind] := by
  cases hr : env.rescan with
  | none => simp [set_accessory_mode, h, hr]
  | some dev => simp [set_accessory_mode, h, hr]

/-- Witness for the amended claim C6 at the nominal environment: the
re-scan finds the handle with identity 1 and the device field becomes
exactly that handle. -/
theorem set_accessory_mode_rescan_witness :
    (set_accessory_mode app0 envOk).1 = .ok () ∧
    (set_accessory_mode app0 envOk).2.1.device = some ⟨1⟩ :=
  (set_accessory_mode_rescan app0 envOk rfl).2.1 ⟨1⟩ rfl

/-- Claim C7: endpoint discovery returns an endpoint whose direction
bit is IN for the receive channel and OUT for the send channel; when
no endpoint of the required direction exists, the channel fails with
the endpoint-not-found outcome instead of falling back to an endpoint
of the other direction. -/
theorem endpoint_discovery_direction (endpoints : List Endpoint)
    (detachResult : Option String) (events : List ReadEvent)
    (messages : List String) :
    (∀ e, find_in_endpoint endpoints = some e →
      endpoint_direction e.bEndpointAddress = ENDPOINT_IN) ∧
    (∀ e, find_out_endpoint endpoints = some e →
      endpoint_direction e.bEndpointAddress = ENDPOINT_OUT) ∧
    ((∀ e ∈ endpoints, endpoint_direction e.bEndpointAddress ≠ ENDPOINT_IN) →
      accept_data endpoints detachResult events = .error .endpointNotFound) ∧
    ((∀ e ∈ endpoints, endpoint_direction e.bEndpointAddress ≠ ENDPOINT_OUT) →
      write endpoints messages = .error .endpointNotFound) := by
  refine ⟨?_, ?_, ?_, ?_⟩
  · intro e he
    have he' : endpoints.find? (fun e =>
        endpoint_direction e.bEndpointAddress == ENDPOINT_IN) = some e := he
    simpa using List.find?_some he'
  · intro e he
    have he' : endpoints.find? (fun e =>
        endpoint_direction e.bEndpointAddress == ENDPOINT_OUT) = some e := he
    simpa using List.find?_some he'
  · intro h
    have hn : find_in_endpoint endpoints = none := by
      apply List.find?_eq_none.mpr
      intro e he
      simpa using h e he
    simp [accept_data, hn]
  · intro h
    have hn : find_out_endpoint endpoints = none := by
      apply List.find?_eq_none.mpr
      intro e he
      simpa using h e he
    simp [write, hn]

/-- Witness for claim C7: a lone IN endpoint is selected for receive
mode, and with only an OUT endpoint present the receive channel fails
with the endpoint-not-found outcome. -/
theorem endpoint_discovery_direction_witness :
    endpoint_direction epIn.bEndpointAddress = ENDPOINT_IN ∧
    accept_data [epOut] none [] = .error .endpointNotFound :=
  ⟨(endpoint_discovery_direction [epIn] none [] []).1 epIn rfl,
   (endpoint_discovery_direction [epOut] none [] []).2.2.1 (by decide)⟩

/-- Claim C8: when a read in the receive loop raises a transport (USB)
error after a sequence of successful 1-byte reads, every byte read
before the error is printed as an unsigned integer, the error is
surfaced with its description, the loop terminates, and no further
read is attempted (the count of reads is exactly the successful ones
plus the failing one, whatever events would have followed). -/
theorem receive_loop_transport_error_stops (detachResult : Option String)
    (bs : List Nat) (msg : String) (rest : List ReadEvent) :
    receive_loop detachResult
        (bs.map ReadEvent.byte ++ ReadEvent.usbErr msg :: rest) =
      { output := bs, reads := bs.length + 1, detaches := 0,
        exit := .transportError msg } := by
  induction bs with
  | nil => rfl
  | cons b tl ih => simp [receive_loop, ih]

/-- Claim C9: the mode-trigger step fails with the mode-trigger error
iff the acknowledgment of the empty-payload control write is nonzero;
with a zero acknowledgment the step proceeds to the fixed 1-second
settle wait and the single bus re-scan. -/
theorem set_accessory_mode_trigger_gate (st : App) (env : Env) :
    ((set_accessory_mode st env).1 = .error .modeTriggerFailed ↔
      env.triggerAck ≠ 0) ∧
    (env.triggerAck = 0 →
      (set_accessory_mode st env).2.2 =
        [.controlWrite 0x40 53 0 0 "", .sleep 1, .busFind]) := by
  by_cases h : env.triggerAck = 0
  · cases hr : env.rescan with
    | none => simp [set_accessory_mode, h, hr]
    | some dev => simp [set_accessory_mode, h, hr]
  · simp [set_accessory_mode, h]

/-- Witness for claim C9: at the nominal environment the trigger is
acknowledged with zero and the step performs the trigger write, the
1-second sleep and the bus re-scan, in that order. -/
theorem set_accessory_mode_trigger_gate_witness :
    (set_accessory_mode app0 envOk).2.2 =
      [.controlWrite 0x40 53 0 0 "", .sleep 1, .busFind] :=
  (set_accessory_mode_trigger_gate app0 envOk).2 rfl

/-- The negotiation errors that can only arise before the mode trigger:
the re-raised configuration error, the unsupported-protocol error, and
the identity-rejected error. -/
def preTriggerError : NegError → Prop
  | .usbError _ => True
  | .unsupportedProtocol _ => True
  | .identityRejected => True
  | .modeTriggerFailed => False
  | .deviceLost => False

/-- Claim C10: `set_protocol` and `send_accessory_parameters` leave the
device field untouched whatever their outcome, and when the sequenced
negotiation fails with an error arising before the mode trigger the
final device field is exactly the pre-negotiation one. -/
theorem negotiation_device_frame (st : App) (env : Env) :
    (set_protocol st env).2.1.device = st.device ∧
    (send_accessory_parameters st env).2.1.device = st.device ∧
    (∀ e, (prepare_device st env).1 = .error e → preTriggerError e →
      (prepare_device st env).2.1.device = st.device) := by
  refine ⟨?_, rfl, ?_⟩
  · rw [set_protocol_state]
  · intro e h _
    exact prepare_device_error_frame st env e h

/-- Witness for claim C10: the version-1 environment fails before the
mode trigger and the device field still holds the original handle. -/
theorem negotiation_device_frame_witness :
    (prepare_device app0 envV1).2.1.device = app0.device :=
  (negotiation_device_frame app0 envV1).2.2
    (.unsupportedProtocol 1) rfl trivial

end USBMachine
